import Mathlib

/-!
Verification of the iec104 repository (Go implementation of IEC 60870-5-104).

This file gives a shallow embedding of the parts of the code the claims are
about: the ASDU codec header handling (`ASDU.Parse`, `ASDU.Data` and the
per-byte parse helpers), one iteration of the server accept loop
(`Server.Serve`), and the builder-style client options
(`NewClientOption` and its setters).

Go bytes are modelled as `Nat` (with masking written exactly where the source
writes it), `time.Duration` as `Int` nanoseconds, and Go `nil` as
`Option.none`.
-/

namespace Iec104

/-- Fixed length of the ASDU data-unit identifier: six bytes
(the constant `AsduHeaderLen` used by `ASDU.Parse`). -/
def AsduHeaderLen : Nat := 6

/-- The `ASDU` struct of the codec file, restricted to the fields the encoder
`ASDU.Data` reads. The repository's `InformationObject` type and its `Data()`
method are not under src, so `ios` keeps each information object as the byte
list its `Data()` method produces; `ASDU.Data` only concatenates them. -/
structure ASDU where
  typeID : Nat
  sq : Bool
  nObjs : Nat
  t : Bool
  pn : Bool
  cot : Nat
  org : Nat
  coa : Nat
  ios : List (List Nat)
deriving DecidableEq

/-- The closure in `ASDU.Data` producing the 2nd byte: the source combines the
SQ flag with the object count using `&` (bitwise AND), literally
`(0b1 << 7) & asdu.nObjs` when `sq` is set. -/
def ASDU.data2 (a : ASDU) : Nat :=
  if a.sq then (1 <<< 7) &&& a.nObjs else a.nObjs

/-- The closure in `ASDU.Data` producing the 3rd byte: the source combines the
T and P/N flags with the cause of transmission using `&` (bitwise AND). -/
def ASDU.data3 (a : ASDU) : Nat :=
  if a.t && a.pn then (3 <<< 6) &&& a.cot
  else if a.t then (1 <<< 7) &&& a.cot
  else if a.pn then (1 <<< 6) &&& a.cot
  else a.cot

/-- `ASDU.Data`: the encoder. Byte 1 is the type identification, bytes 5 and 6
are the common address in little-endian order (`binary.LittleEndian.PutUint16`),
and the remaining bytes are the concatenated information-object encodings. -/
def ASDU.Data (a : ASDU) : List Nat :=
  [a.typeID, a.data2, a.data3, a.org, a.coa &&& 255, (a.coa >>> 8) &&& 255]
    ++ a.ios.flatten

/-- `ASDU.parseTypeID`: the 1st byte taken verbatim. -/
def ASDU.parseTypeID (b : Nat) : Nat := b

/-- `ASDU.parseSQ`: `(data & (1 << 7)) == 1 << 7`. -/
def ASDU.parseSQ (b : Nat) : Bool := b &&& (1 <<< 7) == 1 <<< 7

/-- `ASDU.parseNOO`: `data & 0b1111111`. -/
def ASDU.parseNOO (b : Nat) : Nat := b &&& 127

/-- `ASDU.parseT`: `(data & (1 << 7)) == 1 << 7`. -/
def ASDU.parseT (b : Nat) : Bool := b &&& (1 <<< 7) == 1 <<< 7

/-- `ASDU.parsePN`: `(data & (1 << 6)) == 1 << 6`. -/
def ASDU.parsePN (b : Nat) : Bool := b &&& (1 <<< 6) == 1 <<< 6

/-- `ASDU.parseCOT`: `data & 0b111111`. -/
def ASDU.parseCOT (b : Nat) : Nat := b &&& 63

/-- `ASDU.parseORG`: the 4th byte taken verbatim. -/
def ASDU.parseORG (b : Nat) : Nat := b

/-- `ASDU.parseCOA`: `binary.LittleEndian.Uint16` of the 5th and 6th bytes. -/
def ASDU.parseCOA (b0 b1 : Nat) : Nat := b0 ||| (b1 <<< 8)

/-- The fields of an `ASDU` filled in by `ASDU.Parse`. The source's
`parseInformationObjects` is not under src (its result is also discarded by
`Parse`), so `rest` records the byte slice `data[AsduHeaderLen:]` that `Parse`
hands to it. -/
structure ParsedASDU where
  typeID : Nat
  sq : Bool
  nObjs : Nat
  t : Bool
  pn : Bool
  cot : Nat
  org : Nat
  coa : Nat
  rest : List Nat
deriving DecidableEq

/-- `ASDU.Parse`: returns the error `invalid asdu header` when fewer than
`AsduHeaderLen` bytes are given; otherwise decodes the six header bytes with
the parse helpers and returns successfully (the source returns `nil`
unconditionally after the header check; the call to the missing
`parseInformationObjects` has no error path back into `Parse`). -/
def ASDU.Parse (data : List Nat) : Except String ParsedASDU :=
  if data.length < AsduHeaderLen then
    Except.error "invalid asdu header"
  else
    Except.ok
      { typeID := ASDU.parseTypeID (data.getD 0 0)
        sq := ASDU.parseSQ (data.getD 1 0)
        nObjs := ASDU.parseNOO (data.getD 1 0)
        t := ASDU.parseT (data.getD 2 0)
        pn := ASDU.parsePN (data.getD 2 0)
        cot := ASDU.parseCOT (data.getD 2 0)
        org := ASDU.parseORG (data.getD 3 0)
        coa := ASDU.parseCOA (data.getD 4 0) (data.getD 5 0)
        rest := data.drop AsduHeaderLen }

/-- Go `time.Duration`: an integer count of nanoseconds. -/
abbrev Duration := Int

/-- One second of `time.Duration` in nanoseconds. -/
def timeSecond : Duration := 1000000000

/-- Constant `DefaultReconnectRetries = 1`. -/
def DefaultReconnectRetries : Int := 1

/-- Constant `DefaultReconnectInterval = 3 * time.Second`. -/
def DefaultReconnectInterval : Duration := 3 * timeSecond

/-- The `AutoReconnectRule` struct. -/
structure AutoReconnectRule where
  retries : Int
  interval : Duration
deriving DecidableEq

/-- The `ClientOption` struct. The handler function values and the TLS config
are opaque to the claims, so they are modelled by optional numeric tags
(`none` is the Go `nil`); the parsed server URL is kept as the string the URL
parser returned. -/
structure ClientOption where
  server : String
  connectTimeout : Duration
  autoReconnectRule : Option AutoReconnectRule
  onConnectHandler : Option Nat
  onDisconnectHandler : Option Nat
  handler : Nat
  tc : Option Nat
deriving DecidableEq

/-- Go `strings.Contains s sub`: `sub` occurs as a contiguous substring. -/
def goContains (s sub : String) : Bool := decide (sub.data <:+: s.data)

/-- `NewClientOption`: prefixes `127.0.0.1` when the address starts with a
colon, prefixes the `tcp://` scheme when no scheme separator occurs, then
parses the address. `parseURL` abstracts the external `url.Parse`; the
function performs no I/O, so the only error path is a parse failure. The
default on-connect and on-disconnect closures are modelled by the tags `0`
and `1`. -/
def NewClientOption (parseURL : String → Except String String)
    (server : String) (handler : Nat) (connecttimeout : Duration) :
    Except String ClientOption :=
  let s1 := if server.length > 0 && server.front == ':' then
    "127.0.0.1" ++ server else server
  let s2 := if !goContains s1 "://" then "tcp://" ++ s1 else s1
  match parseURL s2 with
  | Except.error e => Except.error e
  | Except.ok u =>
      Except.ok
        { server := u
          connectTimeout := connecttimeout
          autoReconnectRule := some
            { retries := DefaultReconnectRetries
              interval := DefaultReconnectInterval }
          onConnectHandler := some 0
          onDisconnectHandler := some 1
          handler := handler
          tc := none }

/-- `ClientOption.SetConnectTimeout`: assigns the timeout only when it is
positive. -/
def ClientOption.SetConnectTimeout (o : ClientOption) (timeout : Duration) :
    ClientOption :=
  if timeout > 0 then { o with connectTimeout := timeout } else o

/-- `ClientOption.SetAutoReconnectRule`: returns the option unchanged on a
nil rule; otherwise replaces a negative retries count and a negative interval
by the defaults and installs the rule. -/
def ClientOption.SetAutoReconnectRule (o : ClientOption)
    (rule : Option AutoReconnectRule) : ClientOption :=
  match rule with
  | none => o
  | some r =>
      let r := if r.retries < 0 then
        { r with retries := DefaultReconnectRetries } else r
      let r := if r.interval < 0 then
        { r with interval := DefaultReconnectInterval } else r
      { o with autoReconnectRule := some r }

/-- `ClientOption.SetOnConnectHandler`: installs the handler only when it is
non-nil. -/
def ClientOption.SetOnConnectHandler (o : ClientOption)
    (handler : Option Nat) : ClientOption :=
  match handler with
  | some h => { o with onConnectHandler := some h }
  | none => o

/-- `ClientOption.SetOnDisconnectHandler`: installs the handler only when it
is non-nil. -/
def ClientOption.SetOnDisconnectHandler (o : ClientOption)
    (handler : Option Nat) : ClientOption :=
  match handler with
  | some h => { o with onDisconnectHandler := some h }
  | none => o

/-- The address normalization the spec describes for `NewClientOption`:
infer `127.0.0.1` when the address starts with a colon, and the `tcp://`
scheme when no `://` is present. Stated from the spec's words, to be compared
against the normalization inside `NewClientOption`. -/
def specNormalizeAddr (server : String) : String :=
  let s1 := if server.length > 0 && server.front == ':' then
    "127.0.0.1" ++ server else server
  if !goContains s1 "://" then "tcp://" ++ s1 else s1

/-- `net.Conn.RemoteAddr`, with the connection modelled as an optional tag:
calling the method on the `nil` interface value is a runtime panic, modelled
as `none`; on a real connection it returns its address tag. -/
def Conn.RemoteAddr : Option Nat → Option Nat
  | none => none
  | some c => some c

/-- The result of `listener.Accept()` in `Server.Serve`: either a live
connection, or an error (in which case the returned `net.Conn` is the nil
interface value). -/
inductive AcceptResult where
  | ok (c : Nat)
  | fail (e : String)
deriving DecidableEq

/-- What one iteration of the accept loop in `Server.Serve` does. -/
inductive LoopOutcome where
  | panicked
  | continued
  | handled (c : Nat)
deriving DecidableEq

/-- One iteration of the `for` loop in `Server.Serve`. On an `Accept` error
the source logs `"accept conn with %s"` formatted with `conn.RemoteAddr()`
and then continues; in that branch `conn` is the nil interface, so evaluating
the log argument is modelled by `Conn.RemoteAddr none`, whose `none` result is
the nil-dereference panic. On success the connection is handed to a new
goroutine running `s.serve`. -/
def Server.serveIteration : AcceptResult → LoopOutcome
  | AcceptResult.fail _ =>
      match Conn.RemoteAddr none with
      | none => LoopOutcome.panicked
      | some _ => LoopOutcome.continued
  | AcceptResult.ok c => LoopOutcome.handled c

/-! Helper lemmas shared by the claim theorems. -/

/-- Successful evaluation of `ASDU.Parse` on at least six bytes. -/
lemma Parse_eq_of_ge (data : List Nat) (h : 6 ≤ data.length) :
    ASDU.Parse data = Except.ok
      ⟨ASDU.parseTypeID (data.getD 0 0), ASDU.parseSQ (data.getD 1 0),
       ASDU.parseNOO (data.getD 1 0), ASDU.parseT (data.getD 2 0),
       ASDU.parsePN (data.getD 2 0), ASDU.parseCOT (data.getD 2 0),
       ASDU.parseORG (data.getD 3 0),
       ASDU.parseCOA (data.getD 4 0) (data.getD 5 0),
       data.drop 6⟩ := by
  unfold ASDU.Parse AsduHeaderLen
  rw [if_neg (by omega)]

/-- The number-of-objects parse helper keeps the low seven bits. -/
lemma parseNOO_eq_mod (b : Nat) : ASDU.parseNOO b = b % 128 := by
  have h := Nat.and_pow_two_sub_one_eq_mod b 7
  simpa [ASDU.parseNOO] using h

/-- The cause-of-transmission parse helper keeps the low six bits. -/
lemma parseCOT_eq_mod (b : Nat) : ASDU.parseCOT b = b % 64 := by
  have h := Nat.and_pow_two_sub_one_eq_mod b 6
  simpa [ASDU.parseCOT] using h

/-- The structure-qualifier parse helper reads exactly bit 7. -/
lemma parseSQ_eq_testBit (b : Nat) : ASDU.parseSQ b = b.testBit 7 := by
  unfold ASDU.parseSQ
  have h : (1 <<< 7 : Nat) = 2 ^ 7 := by decide
  rw [h, Nat.and_two_pow]
  cases hb : b.testBit 7 <;> decide

/-- The test-flag parse helper reads exactly bit 7. -/
lemma parseT_eq_testBit (b : Nat) : ASDU.parseT b = b.testBit 7 := by
  unfold ASDU.parseT
  have h : (1 <<< 7 : Nat) = 2 ^ 7 := by decide
  rw [h, Nat.and_two_pow]
  cases hb : b.testBit 7 <;> decide

/-- The positive-negative-flag parse helper reads exactly bit 6. -/
lemma parsePN_eq_testBit (b : Nat) : ASDU.parsePN b = b.testBit 6 := by
  unfold ASDU.parsePN
  have h : (1 <<< 6 : Nat) = 2 ^ 6 := by decide
  rw [h, Nat.and_two_pow]
  cases hb : b.testBit 6 <;> decide

/-! The claim theorems. -/

/-- C1: the claim says decoding the bytes produced by encoding yields the
original ASDU for every valid field combination, with sq and numObjects
surviving the round trip. The encoder combines the SQ flag into byte 2 with
`&` instead of `|`, so for the valid ASDU with `sq = true`, `numObjects = 1`,
`cot = 3`, `coa = 1` the encoded byte 2 is `0x80 & 1 = 0` and decoding yields
`sq = false`, `numObjects = 0`: the round trip fails. -/
theorem C1_roundtrip_fails_for_sq :
    ASDU.Data ⟨1, true, 1, false, false, 3, 0, 1, []⟩ = [1, 0, 3, 0, 1, 0] ∧
    ASDU.Parse [1, 0, 3, 0, 1, 0] =
      Except.ok ⟨1, false, 0, false, false, 3, 0, 1, []⟩ ∧
    ((true : Bool) ≠ false ∧ (1 : Nat) ≠ 0) :=
  ⟨rfl, rfl, by decide, by decide⟩

/-- C2: the claim says the encoder packs byte 2 as `0x80 | numObjects` when
`sq` is set, and byte 3 as the T and P/N bits ORed with the cause of
transmission. The source uses `&` in all three closures, so each flagged
encoding collapses to 0 instead of the claimed OR value. -/
theorem C2_encoder_ands_instead_of_ors :
    (ASDU.Data ⟨1, true, 1, false, false, 3, 0, 1, []⟩).getD 1 0 = 0 ∧
    (128 ||| 1 : Nat) = 129 ∧
    (ASDU.Data ⟨1, false, 1, true, false, 3, 0, 1, []⟩).getD 2 0 = 0 ∧
    (128 ||| 3 : Nat) = 131 ∧
    (ASDU.Data ⟨1, false, 1, false, true, 3, 0, 1, []⟩).getD 2 0 = 0 ∧
    (64 ||| 3 : Nat) = 67 ∧
    (ASDU.Data ⟨1, false, 1, true, true, 3, 0, 1, []⟩).getD 2 0 = 0 ∧
    (192 ||| 3 : Nat) = 195 := by decide

/-- C3 counterexample: for the ASDU with `numObjects = 200 > 127` and
`cot = 70 > 63`, `ASDU.Data` reports no error at all (its type has no error
path) and produces the bytes with both out-of-range values written verbatim,
refuting the claim that encoding reports an InvalidField violation instead of
producing bytes. -/
theorem C3_counterexample :
    ASDU.Data ⟨1, false, 200, false, false, 70, 0, 1, []⟩ =
      [1, 200, 70, 0, 1, 0] ∧
    127 < (200 : Nat) ∧ 63 < (70 : Nat) := by decide

/-- C3 amended: `ASDU.Data` performs no range validation and cannot report an
error: with the flag bits clear it writes any `numObjects` and any
`causeOfTransmission` verbatim into bytes 2 and 3, out of range or not, so
out-of-range bits alias the SQ/T/PN flag positions on decode. -/
theorem C3_amended_encode_never_validates (tid n c org coa : Nat)
    (ios : List (List Nat)) :
    ASDU.Data ⟨tid, false, n, false, false, c, org, coa, ios⟩ =
      tid :: n :: c :: org :: (coa &&& 255) :: ((coa >>> 8) &&& 255) ::
        ios.flatten := rfl

/-- C4 counterexample: the header `[1, 5, 3, 0, 1, 0]` declares
`numObjects = 5` while zero payload bytes remain, yet `ASDU.Parse` succeeds
instead of failing with a truncated-payload error. -/
theorem C4_counterexample :
    ASDU.Parse [1, 5, 3, 0, 1, 0] =
      Except.ok ⟨1, false, 5, false, false, 3, 0, 1, []⟩ ∧
    (5 : Nat) ≠ 0 := ⟨rfl, by decide⟩

/-- C4 amended: `ASDU.Parse` returns an error exactly when fewer than six
bytes are given (the malformed-header case); whenever at least six bytes are
present it succeeds, regardless of whether the remaining bytes can satisfy
the declared `numObjects`. -/
theorem C4_amended_error_iff_short_header (data : List Nat) :
    (∃ e, ASDU.Parse data = Except.error e) ↔ data.length < 6 := by
  unfold ASDU.Parse AsduHeaderLen
  by_cases h : data.length < 6
  · simp [h]
  · simp [h]

/-- C5: the claim says an `Accept` error is logged and the loop continues.
In the error branch the source formats the log message with
`conn.RemoteAddr()`, but on an `Accept` error the returned connection is the
nil interface, so the iteration dereferences nil and panics instead of
reaching `continue`; the panic terminates `Serve` and the accept loop. -/
theorem C5_accept_error_panics :
    Server.serveIteration (AcceptResult.fail "accept error") =
      LoopOutcome.panicked ∧
    LoopOutcome.panicked ≠ LoopOutcome.continued ∧
    (∀ c : Nat, Server.serveIteration (AcceptResult.ok c) =
      LoopOutcome.handled c) :=
  ⟨rfl, by decide, fun _ => rfl⟩

/-- C6: `SetAutoReconnectRule` never rejects a non-nil rule: a negative
retries count is replaced by the default 1 and a negative interval by the
default 3-second (3000000000 ns) interval, while non-negative values are
installed unchanged; no other field of the option changes. -/
theorem C6_reconnect_rule_normalization (o : ClientOption)
    (r : AutoReconnectRule) :
    ClientOption.SetAutoReconnectRule o (some r) =
      { o with autoReconnectRule := some ⟨if r.retries < 0 then 1 else r.retries, if r.interval < 0 then 3000000000 else r.interval⟩ } := by
  unfold ClientOption.SetAutoReconnectRule
  by_cases h1 : r.retries < 0 <;> by_cases h2 : r.interval < 0 <;>
    simp [h1, h2, DefaultReconnectRetries, DefaultReconnectInterval,
      timeSecond]

/-- C7: `NewClientOption` fails exactly when parsing the normalized address
fails: it first infers the defaults (host `127.0.0.1` for an address starting
with a colon, scheme `tcp://` when no `://` occurs) and then its only error
path is the URL parser's error; the function is pure, so the failure happens
before any connection attempt, for every URL parser. -/
theorem C7_error_iff_url_parse_fails
    (parseURL : String → Except String String) (server : String)
    (handler : Nat) (ct : Duration) :
    (∃ e, NewClientOption parseURL server handler ct = Except.error e) ↔
      (∃ e, parseURL (specNormalizeAddr server) = Except.error e) := by
  have heq : NewClientOption parseURL server handler ct =
      match parseURL (specNormalizeAddr server) with
      | Except.error e => Except.error e
      | Except.ok u =>
          Except.ok ⟨u, ct, some ⟨1, 3000000000⟩, some 0, some 1, handler,
            none⟩ := rfl
  rw [heq]
  cases hp : parseURL (specNormalizeAddr server) <;> simp

/-- C8 counterexample: the claim says a non-positive duration leaves the
option holding a documented default timeout; in fact `SetConnectTimeout 0`
leaves whatever value was already stored, so two options holding 5 and 7
nanoseconds keep those distinct values and no default is substituted. -/
theorem C8_counterexample :
    (ClientOption.SetConnectTimeout
        ⟨"tcp://127.0.0.1:2404", 5, none, none, none, 0, none⟩
        0).connectTimeout = 5 ∧
    (ClientOption.SetConnectTimeout
        ⟨"tcp://127.0.0.1:2404", 7, none, none, none, 0, none⟩
        0).connectTimeout = 7 ∧
    (5 : Duration) ≠ 7 :=
  ⟨rfl, rfl, by decide⟩

/-- C8 amended: `SetConnectTimeout` never fails; a duration `d > 0` is
installed and a duration `d ≤ 0` leaves the option completely unchanged (the
previously stored timeout persists; no default value is substituted). -/
theorem C8_amended_nonpositive_is_noop (o : ClientOption) (d : Duration) :
    ClientOption.SetConnectTimeout o d =
      if 0 < d then { o with connectTimeout := d } else o := rfl

/-- C9: parsing any byte sequence of at least six bytes succeeds and yields
header fields within their bit-widths: `numObjects` is the low seven bits of
byte 2 (hence at most 127), `causeOfTransmission` the low six bits of byte 3
(hence at most 63), and `sq`, `test`, `positiveNegative` are exactly bit 7 of
byte 2, bit 7 of byte 3 and bit 6 of byte 3. -/
theorem C9_parsed_header_bit_widths (data : List Nat)
    (h : 6 ≤ data.length) :
    ∃ a : ParsedASDU, ASDU.Parse data = Except.ok a ∧
      a.nObjs = data.getD 1 0 % 128 ∧ a.nObjs ≤ 127 ∧
      a.cot = data.getD 2 0 % 64 ∧ a.cot ≤ 63 ∧
      a.sq = (data.getD 1 0).testBit 7 ∧
      a.t = (data.getD 2 0).testBit 7 ∧
      a.pn = (data.getD 2 0).testBit 6 := by
  refine ⟨_, Parse_eq_of_ge data h, parseNOO_eq_mod _, ?_,
    parseCOT_eq_mod _, ?_, parseSQ_eq_testBit _, parseT_eq_testBit _,
    parsePN_eq_testBit _⟩
  · rw [parseNOO_eq_mod]
    exact Nat.le_of_lt_succ (Nat.mod_lt _ (by norm_num))
  · rw [parseCOT_eq_mod]
    exact Nat.le_of_lt_succ (Nat.mod_lt _ (by norm_num))

/-- Witness for C9 at the concrete input `[1, 200, 255, 0, 1, 0]`. -/
theorem C9_witness :
    ∃ a : ParsedASDU, ASDU.Parse [1, 200, 255, 0, 1, 0] = Except.ok a ∧
      a.nObjs = [1, 200, 255, 0, 1, 0].getD 1 0 % 128 ∧ a.nObjs ≤ 127 ∧
      a.cot = [1, 200, 255, 0, 1, 0].getD 2 0 % 64 ∧ a.cot ≤ 63 ∧
      a.sq = ([1, 200, 255, 0, 1, 0].getD 1 0).testBit 7 ∧
      a.t = ([1, 200, 255, 0, 1, 0].getD 2 0).testBit 7 ∧
      a.pn = ([1, 200, 255, 0, 1, 0].getD 2 0).testBit 6 :=
  C9_parsed_header_bit_widths [1, 200, 255, 0, 1, 0] (by decide)

/-- C10: passing a nil rule or nil handlers to the setters leaves the whole
option unchanged, every field included. -/
theorem C10_nil_setters_are_noops (o : ClientOption) :
    ClientOption.SetAutoReconnectRule o none = o ∧
    ClientOption.SetOnConnectHandler o none = o ∧
    ClientOption.SetOnDisconnectHandler o none = o :=
  ⟨rfl, rfl, rfl⟩

end Iec104
